import Mathlib

/-!
Verification of the solbus repository (groengemak/solbus) against its
natural-language specification.  The Python sources
(`groengemak/solbus/modbus.py`, `drivers.py`, `inout.py`) are shallowly
embedded below: byte strings become `List Nat` (each entry one byte),
the serial channel becomes an explicit input byte list plus a flag
recording whether `reset_input_buffer` was invoked, and fallible Python
code returns `Except Err`.  Python-level failures that the source can
raise (IndexError from `msg[0]`, TypeError from `ord` of a non-string,
AssertionError, NameError from an unresolvable identifier,
AttributeError from a missing attribute, NotImplementedError from stub
methods) appear as explicit `Err` constructors.
-/

/-- Failure outcomes of the embedded Python code.  `protocolError` carries the
Modbus exception code together with the human-readable reason that the source
interpolates into its message string. -/
inductive Err where
  | addressMismatch (got expected : Nat)
  | functionMismatch (got expected : Nat)
  | protocolError (code : Nat) (reason : String)
  | lengthMismatch (got expected : Nat)
  | checksumMismatch
  | indexError
  | typeError
  | assertionError
  | notImplemented (what : String)
  | nameError (what : String)
  | attributeError (what : String)
deriving DecidableEq, Repr

/-- A micro-universe of Python values, just large enough to give the exact
semantics of the expression `ord (values [0] == count)` in `Modbus._read1`
(modbus.py line 66): a one-character string, an integer, or a boolean. -/
inductive PyVal where
  | pystr (s : List Nat)
  | pyint (n : Int)
  | pybool (b : Bool)
deriving DecidableEq, Repr

/-- Python `==` on the values of `PyVal`.  A string never equals an integer or
a boolean; booleans compare with integers numerically (True == 1). -/
def pyEq : PyVal → PyVal → PyVal
  | .pystr a, .pystr b => .pybool (a = b)
  | .pyint a, .pyint b => .pybool (a = b)
  | .pybool a, .pybool b => .pybool (a = b)
  | .pybool a, .pyint n => .pybool ((if a then (1 : Int) else 0) = n)
  | .pyint n, .pybool a => .pybool (n = (if a then (1 : Int) else 0))
  | _, _ => .pybool false

/-- Python `ord`: accepts exactly a one-character string and returns its code
point; every other argument (including a boolean) raises TypeError. -/
def pyOrd : PyVal → Except Err Nat
  | .pystr [c] => .ok c
  | _ => .error .typeError

/-- modbus.py lines 12-14, `chr16`: encode a 16-bit integer low byte first.
The source asserts `0 <= o <= 0xffff` before encoding; the lower bound holds
by the `Nat` type. -/
def chr16 (o : Nat) : Except Err (List Nat) :=
  if o ≤ 0xffff then .ok [o &&& 0xff, o >>> 8] else .error .assertionError

/-- modbus.py lines 139-153, the per-bit step inside `RS485._crc`: when the
low bit is set the source XORs `0x14002` into the accumulator and then shifts
right; otherwise it only shifts. -/
def RS485.crcShift (csum : Nat) : Nat :=
  if csum % 2 = 1 then (csum ^^^ 0x14002) >>> 1 else csum >>> 1

/-- modbus.py lines 144-153: one input byte of `RS485._crc` — XOR the byte
into the accumulator, then eight shift/XOR iterations. -/
def RS485.crcByte (csum b : Nat) : Nat :=
  RS485.crcShift^[8] (csum ^^^ b)

/-- modbus.py lines 139-153, `RS485._crc` up to the final packing: seed
`0xffff`, then fold `crcByte` over the message bytes. -/
def RS485.crc (msg : List Nat) : Nat :=
  msg.foldl RS485.crcByte 0xffff

/-- modbus.py line 154: `RS485._crc` returns `chr (csum & 0x00ff) +
chr (csum >> 8)` — the checksum as two bytes, low byte first. -/
def RS485.crcBytes (msg : List Nat) : List Nat :=
  [RS485.crc msg &&& 0xff, RS485.crc msg >>> 8]

/-- Spec-side definition (§4.1 of the spec, for the refinement claim C3): the
standard reflected Modbus CRC-16 step — shift right, XORing the polynomial
`0xA001` when the low bit was set. -/
def crcShiftStd (csum : Nat) : Nat :=
  if csum % 2 = 1 then (csum >>> 1) ^^^ 0xA001 else csum >>> 1

/-- Spec-side definition (§4.1): the standard reflected Modbus CRC-16 of a
byte sequence — seed `0xffff`, per byte XOR into the accumulator followed by
eight `crcShiftStd` iterations. -/
def crc16Std (msg : List Nat) : Nat :=
  msg.foldl (fun c b => crcShiftStd^[8] (c ^^^ b)) 0xffff

/-- modbus.py lines 156-164, `RS485.sendmsg`: the bytes written to the serial
channel — slave address, function code, payload, then the CRC computed over
address ++ function ++ payload. -/
def RS485.sendmsg (slave function : Nat) (data : List Nat) : List Nat :=
  let msg := slave :: function :: data
  msg ++ RS485.crcBytes msg

theorem shiftRight_one_xor (a b : Nat) : (a ^^^ b) >>> 1 = (a >>> 1) ^^^ (b >>> 1) := by
  apply Nat.eq_of_testBit_eq
  intro i
  simp [Nat.testBit_shiftRight, Nat.testBit_xor]

theorem RS485.crcShift_eq_std (c : Nat) : RS485.crcShift c = crcShiftStd c := by
  unfold RS485.crcShift crcShiftStd
  split
  · rw [shiftRight_one_xor]
    congr 1
  · rfl

/-- modbus.py lines 183-194: the dictionary mapping Modbus exception codes to
human-readable reasons, with `errormap.get (errorcode, ...)` falling back to
the generic message (line 195). -/
def RS485.errormap (code : Nat) : String :=
  if code = 1 then "Illegal function"
  else if code = 2 then "Illegal data address"
  else if code = 3 then "Illegal data value"
  else if code = 4 then "Slave device failure"
  else if code = 5 then "Acknowledge"
  else if code = 6 then "Slave device busy"
  else if code = 7 then "Negative acknowledge"
  else if code = 8 then "Memory parity error"
  else if code = 10 then "Gateway path unavailable"
  else if code = 11 then "Gateway target device failed to respond"
  else "Non-standard failure"

/-- modbus.py lines 166-208, `RS485.recvmsg`.  The serial channel is the list
`inbuf` of bytes available to read; `serio.read n` yields the first `n` of
them (fewer when the buffer runs out before the timeout).  The result pairs
the Python outcome with a flag recording whether `reset_input_buffer` was
called.  Control flow follows the source exactly: a header shorter than the
access `msg [0]` / `msg [1]` raises IndexError before `exc` is assigned, so
no reset happens there, and likewise `ord` of an empty read in the exception
branch raises TypeError without a reset. -/
def RS485.recvmsg (slave function datasz : Nat) (inbuf : List Nat) :
    Except Err (List Nat) × Bool :=
  match inbuf with
  | [] => (.error .indexError, false)
  | [a] =>
      if a ≠ slave then (.error (.addressMismatch a slave), true)
      else (.error .indexError, false)
  | a :: f :: rest =>
      if a ≠ slave then (.error (.addressMismatch a slave), true)
      else if f ≠ function then
        if f ≠ function + 128 then (.error (.functionMismatch f function), true)
        else
          match rest with
          | [] => (.error .typeError, false)
          | code :: _ => (.error (.protocolError code (RS485.errormap code)), true)
      else
        let msg := rest.take datasz
        if msg.length ≠ datasz then (.error (.lengthMismatch msg.length datasz), true)
        else
          let crc := (rest.drop datasz).take 2
          if RS485.crcBytes msg ≠ crc then (.error .checksumMismatch, true)
          else (.ok msg, false)

theorem crcShiftStd_lt {c : Nat} (h : c < 2 ^ 16) : crcShiftStd c < 2 ^ 16 := by
  have hs : c >>> 1 < 2 ^ 16 := by
    rw [Nat.shiftRight_eq_div_pow]
    exact lt_of_le_of_lt (Nat.div_le_self _ _) h
  unfold crcShiftStd
  split
  · exact Nat.xor_lt_two_pow hs (by norm_num)
  · exact hs

theorem crcShiftStd_iter_lt (k : Nat) {c : Nat} (h : c < 2 ^ 16) :
    crcShiftStd^[k] c < 2 ^ 16 := by
  induction k generalizing c with
  | zero => simpa using h
  | succ n ih =>
      rw [Function.iterate_succ_apply]
      exact ih (crcShiftStd_lt h)

theorem crc16Std_lt (msg : List Nat) (h : ∀ b ∈ msg, b < 256) :
    crc16Std msg < 2 ^ 16 := by
  unfold crc16Std
  have main : ∀ (l : List Nat) (c : Nat), c < 2 ^ 16 → (∀ b ∈ l, b < 256) →
      l.foldl (fun c b => crcShiftStd^[8] (c ^^^ b)) c < 2 ^ 16 := by
    intro l
    induction l with
    | nil => intro c hc _; simpa using hc
    | cons x xs ih =>
        intro c hc hb
        simp only [List.foldl_cons]
        apply ih
        · exact crcShiftStd_iter_lt 8
            (Nat.xor_lt_two_pow hc (lt_trans (hb x (by simp)) (by norm_num)))
        · intro b hb2
          exact hb b (by simp [hb2])
  exact main msg 0xffff (by norm_num) h

theorem RS485.crc_eq_std (msg : List Nat) : RS485.crc msg = crc16Std msg := by
  have h : RS485.crcShift = crcShiftStd := funext RS485.crcShift_eq_std
  unfold RS485.crc crc16Std RS485.crcByte
  rw [h]

/-- C3: `RS485._crc` computes the standard reflected Modbus CRC-16 (seed
`0xffff`, per byte XOR into the low byte followed by eight shift-right
iterations with conditional XOR of the polynomial `0xA001` when the low bit
is set — `crc16Std` is that standard recurrence written from the spec), the
result fits in 16 bits, and it is returned as two bytes, low byte first.
The embedded `RS485.crc` is a pure function of the message alone — the
source method reads no instance state — so two calls on equal inputs yield
equal outputs by construction. -/
theorem crc_is_standard_modbus (msg : List Nat) (h : ∀ b ∈ msg, b < 256) :
    RS485.crc msg = crc16Std msg ∧
    RS485.crcBytes msg = [crc16Std msg % 256, crc16Std msg / 256] ∧
    crc16Std msg < 2 ^ 16 := by
  refine ⟨RS485.crc_eq_std msg, ?_, crc16Std_lt msg h⟩
  unfold RS485.crcBytes
  rw [RS485.crc_eq_std]
  have h1 : crc16Std msg &&& 0xff = crc16Std msg % 256 := by
    have h0 := Nat.and_pow_two_sub_one_eq_mod (crc16Std msg) 8
    norm_num at h0
    exact h0
  have h2 : crc16Std msg >>> 8 = crc16Std msg / 256 := by
    rw [Nat.shiftRight_eq_div_pow]
  rw [h1, h2]

/-- Witness for C3 at the concrete message `[1, 2]`. -/
theorem crc_is_standard_modbus_witness :
    (∀ b ∈ ([1, 2] : List Nat), b < 256) ∧
    (RS485.crc [1, 2] = crc16Std [1, 2] ∧
     RS485.crcBytes [1, 2] = [crc16Std [1, 2] % 256, crc16Std [1, 2] / 256] ∧
     crc16Std [1, 2] < 2 ^ 16) :=
  ⟨by decide, crc_is_standard_modbus [1, 2] (by decide)⟩

/-- C4: a reply whose function byte equals the expected function plus 128 is
an exception reply — `recvmsg` reads one error-code byte and fails with the
protocol error whose reason is the fixed documented message for each code in
1..8, 10, 11 and the generic non-standard-failure message for every other
code.  (The Python message string interpolates the code and this reason;
`Err.protocolError` carries both.) -/
theorem recvmsg_exception_reply (slave function datasz code : Nat) (rest : List Nat) :
    RS485.recvmsg slave function datasz (slave :: (function + 128) :: code :: rest)
      = (.error (.protocolError code (RS485.errormap code)), true) ∧
    RS485.errormap 1 = "Illegal function" ∧
    RS485.errormap 2 = "Illegal data address" ∧
    RS485.errormap 3 = "Illegal data value" ∧
    RS485.errormap 4 = "Slave device failure" ∧
    RS485.errormap 5 = "Acknowledge" ∧
    RS485.errormap 6 = "Slave device busy" ∧
    RS485.errormap 7 = "Negative acknowledge" ∧
    RS485.errormap 8 = "Memory parity error" ∧
    RS485.errormap 10 = "Gateway path unavailable" ∧
    RS485.errormap 11 = "Gateway target device failed to respond" ∧
    (code ∉ ([1, 2, 3, 4, 5, 6, 7, 8, 10, 11] : List Nat) →
      RS485.errormap code = "Non-standard failure") := by
  refine ⟨?_, rfl, rfl, rfl, rfl, rfl, rfl, rfl, rfl, rfl, rfl, ?_⟩
  · unfold RS485.recvmsg
    simp [show function + 128 ≠ function by omega]
  · intro hc
    simp only [List.mem_cons, List.not_mem_nil, or_false] at hc
    push_neg at hc
    obtain ⟨h1, h2, h3, h4, h5, h6, h7, h8, h10, h11⟩ := hc
    unfold RS485.errormap
    simp [h1, h2, h3, h4, h5, h6, h7, h8, h10, h11]

/-- Witness for C4 at slave 1, function 3, the undocumented code 9. -/
theorem recvmsg_exception_reply_witness :
    (9 : Nat) ∉ ([1, 2, 3, 4, 5, 6, 7, 8, 10, 11] : List Nat) ∧
    RS485.errormap 9 = "Non-standard failure" :=
  ⟨by decide, (recvmsg_exception_reply 1 3 0 9 []).2.2.2.2.2.2.2.2.2.2.2 (by decide)⟩

/-- Classifies the five framing failures that `recvmsg` itself raises after
assigning `exc` (address mismatch, function mismatch, exception reply, short
read, checksum mismatch), as opposed to success and to the uncaught
IndexError / TypeError crashes that escape before `exc` is assigned. -/
def isFramingFailure : Except Err (List Nat) → Bool
  | .error (.addressMismatch _ _) => true
  | .error (.functionMismatch _ _) => true
  | .error (.protocolError _ _) => true
  | .error (.lengthMismatch _ _) => true
  | .error .checksumMismatch => true
  | _ => false

/-- C5: on every failure branch of `recvmsg` — address mismatch, function
mismatch, exception reply, short read, checksum mismatch — the channel's
input buffer is reset before the error is raised, and on the success branch
it is not: the reset flag returned by the embedding is true exactly on those
five outcomes.  (The uncaught IndexError/TypeError crashes, which are not
among the claim's failure branches, escape before `exc` is assigned and do
not reset, which the same equation records.) -/
theorem recvmsg_resets_on_failure (slave function datasz : Nat) (inbuf : List Nat) :
    (RS485.recvmsg slave function datasz inbuf).2
      = isFramingFailure (RS485.recvmsg slave function datasz inbuf).1 := by
  unfold RS485.recvmsg
  rcases inbuf with _ | ⟨a, _ | ⟨f, rest⟩⟩
  · rfl
  · dsimp only
    split <;> rfl
  · dsimp only
    split
    · rfl
    · split
      · split
        · rfl
        · rcases rest with _ | ⟨c, r⟩ <;> rfl
      · split
        · rfl
        · split <;> rfl

theorem RS485.roundtrip_characterization (slave function : Nat) (data : List Nat) :
    RS485.recvmsg slave function data.length (RS485.sendmsg slave function data)
      = if RS485.crcBytes data = RS485.crcBytes (slave :: function :: data)
        then (Except.ok data, false)
        else (Except.error Err.checksumMismatch, true) := by
  unfold RS485.sendmsg RS485.recvmsg
  simp only [List.cons_append]
  rw [List.take_left, List.drop_left]
  simp [RS485.crcBytes]
  split_ifs <;> first | rfl | tauto

/-- C2: the claim is FALSE on the code.  `sendmsg` appends the CRC computed
over address ++ function ++ payload, but `recvmsg` (modbus.py line 202)
recomputes the CRC over the payload alone before comparing it with the
trailer, so decoding a frame that `sendmsg` produced — even over a channel
that echoes the exact bytes with no corruption — fails with the checksum
error whenever the two CRCs differ.  The first conjunct characterizes the
round trip completely; the second evaluates it at slave 1, function 3,
empty payload, where decoding fails (and resets the input buffer) instead
of returning the payload. -/
theorem sendmsg_recvmsg_roundtrip :
    (∀ (slave function : Nat) (data : List Nat),
        RS485.recvmsg slave function data.length (RS485.sendmsg slave function data)
          = if RS485.crcBytes data = RS485.crcBytes (slave :: function :: data)
            then (Except.ok data, false)
            else (Except.error Err.checksumMismatch, true)) ∧
    RS485.recvmsg 1 3 0 (RS485.sendmsg 1 3 [])
      = (Except.error Err.checksumMismatch, true) :=
  ⟨RS485.roundtrip_characterization, by rfl⟩

/-- modbus.py line 66 of `Modbus._read1`: the reply validation
`assert (ord8 (values [0] == count))`.  Because of the misplaced
parenthesis, `ord` is applied to the comparison `values [0] == count`: a
one-character string compared with an integer yields the boolean False, and
`ord` of a boolean raises TypeError.  An empty reply would raise IndexError
at `values [0]` first. -/
def Modbus.read1check (values : List Nat) (count : Nat) : Except Err Nat :=
  match values with
  | [] => .error .indexError
  | v :: _ => pyOrd (pyEq (.pystr [v]) (.pyint count))

/-- modbus.py lines 66-68: the tail of `Modbus._read1` after the reply
arrives — the assert above (an `ord` result of 0 would fail the assert),
then `return [0] * count`; the byte-packed bitmap is never unpacked (the
source carries a TODO for that). -/
def Modbus.read1post (values : List Nat) (count : Nat) : Except Err (List Int) := do
  let n ← Modbus.read1check values count
  if n = 0 then .error .assertionError
  else .ok (List.replicate count 0)

/-- modbus.py lines 62-68, `Modbus._read1` on the RS485 transport: receive
`1 + ((count + 7) >> 3)` reply bytes and validate.  Only the receive side is
relevant to the result, so the channel's bytes come in as `inbuf`; `first`
is the request-side start number, which the reply handling never uses. -/
def Modbus.read1 (slave function first count : Nat) (inbuf : List Nat) :
    Except Err (List Int) :=
  match (RS485.recvmsg slave function (1 + ((count + 7) >>> 3)) inbuf).1 with
  | .error e => .error e
  | .ok values => Modbus.read1post values count

/-- modbus.py lines 70-74, `Modbus.read_coils`: `_read1` with function code 1. -/
def Modbus.read_coils (slave coil1 numcoils : Nat) (inbuf : List Nat) :
    Except Err (List Int) :=
  Modbus.read1 slave 1 coil1 numcoils inbuf

/-- modbus.py lines 76-80, `Modbus.read_switches`: `_read1` with function code 2. -/
def Modbus.read_switches (slave swi1 numswi : Nat) (inbuf : List Nat) :
    Except Err (List Int) :=
  Modbus.read1 slave 2 swi1 numswi inbuf

/-- C7: the claim is FALSE on the code.  The validation in `_read1` is
`assert (ord8 (values [0] == count))` — `ord` applied to the boolean result
of comparing a one-character string with an integer — so every single-bit
read raises TypeError regardless of the reply (and had the assert been
written as intended, the source would still return `[0] * count` without
unpacking the bitmap, per its TODO).  The first conjunct settles the
post-receive handling for every reply; the others evaluate `read_coils` and
`read_switches` on a well-formed one-coil reply whose stated count 1 matches
the request and whose bitmap has the bit set. -/
theorem read_coils_always_type_error :
    (∀ (values : List Nat) (count : Nat),
        Modbus.read1post values count
          = .error (if values = [] then Err.indexError else Err.typeError)) ∧
    Modbus.read_coils 2 5 1 ([2, 1, 1, 1] ++ RS485.crcBytes [1, 1]) = .error .typeError ∧
    Modbus.read_switches 2 5 1 ([2, 2, 1, 1] ++ RS485.crcBytes [1, 1]) = .error .typeError := by
  refine ⟨?_, by rfl, by rfl⟩
  intro values count
  cases values <;> rfl

/-- drivers.py lines 71-86, `Solbus.poll`: iterates the device registry; for
each device it creates a fresh `newvals` dictionary, stores the freshly read
value into it on success (a failing read is caught and only logged), and
then executes `self.vals = newvals` — inside the loop body.  A device is
modeled by `Option Int`: `some v` is a read returning `v`, `none` a read
that raises; `devs` lists the devices in iteration order. -/
def Solbus.poll (devs : List (String × Option Int)) (vals : List (String × Int)) :
    List (String × Int) :=
  devs.foldl
    (fun _ d =>
      match d.2 with
      | some v => [(d.1, v)]
      | none => [])
    vals

/-- C6: the claim is FALSE on the code.  Because `newvals` is re-created and
assigned to `self.vals` inside the loop, a poll cycle leaves at most the
last-iterated device's value in the cache.  Concretely: two devices, "a"
(read fails) then "b" (read returns 7), with prior cached values 1 and 2 —
after the cycle the cache is exactly the singleton for "b", the prior
cached value of the failed device "a" is gone (the claim requires it to
remain 1). -/
theorem poll_wipes_cache :
    Solbus.poll [("a", none), ("b", some 7)] [("a", 1), ("b", 2)] = [("b", 7)] ∧
    (Solbus.poll [("a", none), ("b", some 7)] [("a", 1), ("b", 2)]).lookup "a" = none ∧
    (Solbus.poll [("a", none), ("b", some 7)] [("a", 1), ("b", 2)]).lookup "a" ≠ some 1 := by
  refine ⟨by decide, by decide, by decide⟩

/-- drivers.py lines 186-192, `Grid.__init__`: stores the name, an empty
list of Solbus members, and `power = 0`.  The `period` parameter is accepted
but never stored — the body contains no `self.period` assignment — and
`wattlist` only comes into existence when `balance_power` first runs.
Attributes that a Grid object may lack are modeled as `Option` fields
holding `none`. -/
structure Grid where
  name : String
  list : List String
  power : Int
  wattlist : Option (List Int)
  period : Option Nat
deriving DecidableEq, Repr

/-- drivers.py lines 186-192 as a constructor: `Grid (name, period)`.  Note
`period := none`: the source drops its `period` argument on the floor. -/
def Grid.init (name : String) (period : Nat) : Grid :=
  { name := name, list := [], power := 0, wattlist := none, period := none }

/-- drivers.py lines 323-368, `PowerClaim.__init__`: name, owning bus and
grid (by name), the three flexibility flags all starting False, the creation
time, and the singleton time-to-power / time-to-priority maps. -/
structure PowerClaim where
  name : String
  solbus : String
  grid : String
  can_be_suspended : Bool
  can_be_delayed : Bool
  can_be_reset : Bool
  started : Nat
  time2power : List (Nat × Int)
  time2priority : List (Nat × Nat)
deriving DecidableEq, Repr

/-- drivers.py lines 358-368: construct a PowerClaim at time `now`. -/
def PowerClaim.init (name solbusName gridName : String) (now : Nat) : PowerClaim :=
  { name := name, solbus := solbusName, grid := gridName,
    can_be_suspended := false, can_be_delayed := false, can_be_reset := false,
    started := now, time2power := [(now, 0)], time2priority := [(now, 0)] }

/-- drivers.py lines 200-213, `Grid.balance_power`: the body is
`self.wattlist = wattlist` — it records the raw reading and touches nothing
else.  Per its docstring, "the only interesting thing for balancing power is
the sum of wattlist entries"; the split-up list is kept for future
statistics. -/
def Grid.balance_power (g : Grid) (wattlist : List Int) : Grid :=
  { g with wattlist := some wattlist }

/-- The Grid's current power balance read off the state: the sum of the most
recently recorded wattlist (per the `balance_power` docstring), or the
initial `power = 0` of `__init__` before any reading arrives. -/
def Grid.balance (g : Grid) : Int :=
  match g.wattlist with
  | some w => w.sum
  | none => g.power

/-- drivers.py lines 222-233, `Grid.claim_power`: the body is
`raise NotImplementedError ("claim_power")`, so every call fails — the
docstring's promised True/False admission answer is never produced. -/
def Grid.claim_power (g : Grid) (claim : PowerClaim) (after : Nat)
    (period : Option Nat) : Except Err Bool :=
  .error (.notImplemented "claim_power")

/-- drivers.py lines 235-240, `Grid.retract_claim`: the body is
`raise NotImplementedError ("retract_claim")`. -/
def Grid.retract_claim (g : Grid) (claim : PowerClaim) : Except Err Unit :=
  .error (.notImplemented "retract_claim")

/-- C8: after `balance_power (wattlist)` the Grid's current power balance is
the sum of the entries of `wattlist` (generation negative, consumption
positive, by the Int sum), and no other component of the Grid state changes:
name, Solbus list, the `power` field and the (absent) `period` attribute are
untouched.  The state has no admitted-claim set at all and `balance_power`
calls neither `claim_power` nor any flexibility method, so no preemption can
be triggered. -/
theorem balance_power_sets_balance (g : Grid) (w : List Int) :
    (g.balance_power w).balance = w.sum ∧
    (g.balance_power w).name = g.name ∧
    (g.balance_power w).list = g.list ∧
    (g.balance_power w).power = g.power ∧
    (g.balance_power w).period = g.period :=
  ⟨rfl, rfl, rfl, rfl, rfl⟩

/-- C1: the claim is FALSE on the code.  Both scheduler entry points are
unimplemented stubs: `claim_power` raises NotImplementedError on every call
(so claim B of the section-8 scenario gets an exception, not the claimed
False-then-True admission answers), and `retract_claim` likewise.  The
final conjunct runs the scenario's second step — grid "home", claim B of
priority 3, demand 200 W, suspendable — against the code. -/
theorem claim_power_not_implemented :
    (∀ (g : Grid) (c : PowerClaim) (after : Nat) (period : Option Nat),
        g.claim_power c after period = .error (.notImplemented "claim_power")) ∧
    (∀ (g : Grid) (c : PowerClaim),
        g.retract_claim c = .error (.notImplemented "retract_claim")) ∧
    (Grid.init "home" 300).claim_power
        { PowerClaim.init "B" "bus" "home" 0 with
            can_be_suspended := true,
            time2power := [(0, 200)],
            time2priority := [(0, 3)] } 0 none
      = .error (.notImplemented "claim_power") :=
  ⟨fun _ _ _ _ => rfl, fun _ _ => rfl, rfl⟩

/-- Module-level global names bound in drivers.py: the `time` import and the
four top-level classes.  The class attribute `name2grid` of `Grid` is not a
module global. -/
def driversModuleGlobals : List String :=
  ["time", "Solbus", "Soldev", "PowerClaim", "Grid"]

/-- drivers.py lines 176-180, `Grid.byname`: the body reads the bare
identifier `name2grid`.  Python resolves a bare name inside a static method
through the local, module-global and builtin scopes — class attributes are
not searched — so the read raises NameError before the registry is ever
consulted.  The registry look-up with implicit creation that the docstrings
describe sits in the branch that would run if the name resolved. -/
def Grid.byname (registry : List (String × Grid)) (name : String) :
    Except Err (Grid × List (String × Grid)) :=
  if "name2grid" ∈ driversModuleGlobals then
    match registry.lookup name with
    | some g => .ok (g, registry)
    | none =>
        let g := Grid.init name 300
        .ok (g, (name, g) :: registry)
  else .error (.nameError "name2grid")

/-- The state a Solbus would hold after drivers.py lines 25-35: device
registry, power map, value cache, the owning grid's name, and the sampling
period copied from the grid. -/
structure SolbusState where
  name : String
  devs : List (String × Option Int)
  powm : List (String × Int)
  vals : List (String × Int)
  gridName : String
  wait : Nat
deriving DecidableEq, Repr

/-- drivers.py lines 25-35, `Solbus.__init__`: `self.grid = Grid.byname
(gridname)` then `self.wait = self.grid.period`.  Both steps fail on the
source: `Grid.byname` raises NameError, and even with the registry lookup in
place, `Grid.__init__` stores no `period` attribute, so the attribute read
would raise AttributeError. -/
def Solbus.init (name gridname : String) (registry : List (String × Grid)) :
    Except Err (SolbusState × List (String × Grid)) := do
  let (g, reg) ← Grid.byname registry gridname
  match g.period with
  | none => .error (.attributeError "period")
  | some p =>
      .ok ({ name := name, devs := [], powm := [], vals := [], gridName := g.name,
             wait := p }, reg)

/-- C9: the claim is FALSE on the code.  `Grid.byname` refers to the bare
name `name2grid` instead of `Grid.name2grid`, which raises NameError on
every lookup, so constructing a Bus never obtains a Grid; and even past
that, `Grid.__init__` discards its `period` parameter, so the Bus could not
inherit a sampling period (`self.grid.period` would raise AttributeError).
The last conjunct runs the plain construction `Solbus ("bus1")` with the
default grid name "home" on a fresh registry. -/
theorem byname_raises_nameerror :
    (∀ (registry : List (String × Grid)) (name : String),
        Grid.byname registry name = .error (.nameError "name2grid")) ∧
    (∀ (name gridname : String) (registry : List (String × Grid)),
        Solbus.init name gridname registry = .error (.nameError "name2grid")) ∧
    Solbus.init "bus1" "home" [] = .error (.nameError "name2grid") := by
  have h1 : ∀ (registry : List (String × Grid)) (name : String),
      Grid.byname registry name = .error (.nameError "name2grid") := by
    intro r n
    unfold Grid.byname
    rw [if_neg (by decide)]
  refine ⟨h1, ?_, ?_⟩
  · intro n g r
    unfold Solbus.init
    rw [h1]
    rfl
  · unfold Solbus.init
    rw [h1]
    rfl

theorem chr16_eq {o : Nat} (h : o ≤ 0xffff) : chr16 o = .ok [o % 256, o / 256] := by
  unfold chr16
  rw [if_pos h]
  have hlow : o &&& 0xff = o % 256 := by
    have h0 := Nat.and_pow_two_sub_one_eq_mod o 8
    norm_num at h0
    exact h0
  have hhigh : o >>> 8 = o / 256 := by
    rw [Nat.shiftRight_eq_div_pow]
  rw [hlow, hhigh]

/-- modbus.py lines 53-60, `Modbus.write_coils`: builds
`data = chr16 (coil1) + chr16 (len (values))` — the coil values themselves
are never appended (the source carries a TODO for that) — and hands it to
`sendmsg` with function code 15.  The result is the full request frame
written to the channel. -/
def Modbus.write_coils_frame (slave coil1 : Nat) (values : List Bool) :
    Except Err (List Nat) := do
  let d1 ← chr16 coil1
  let d2 ← chr16 values.length
  .ok (RS485.sendmsg slave 15 (d1 ++ d2))

/-- C10: the request payload of `write_coils` is exactly the low-byte-first
encoding of `coil1` followed by the low-byte-first encoding of the number of
values, and nothing else; consequently the frame written to the channel is
determined by the number of coil values alone — their contents never
influence any transmitted byte. -/
theorem write_coils_ignores_values (slave coil1 : Nat) (values values' : List Bool)
    (h1 : coil1 ≤ 0xffff) (h2 : values.length ≤ 0xffff) :
    Modbus.write_coils_frame slave coil1 values
      = .ok (RS485.sendmsg slave 15
          [coil1 % 256, coil1 / 256, values.length % 256, values.length / 256]) ∧
    (values'.length = values.length →
      Modbus.write_coils_frame slave coil1 values'
        = Modbus.write_coils_frame slave coil1 values) := by
  constructor
  · unfold Modbus.write_coils_frame
    rw [chr16_eq h1, chr16_eq h2]
    rfl
  · intro hlen
    unfold Modbus.write_coils_frame
    rw [hlen]

/-- Witness for C10: coil 5, frames for `[true, false]` and `[false, true]`
coincide. -/
theorem write_coils_ignores_values_witness :
    (5 : Nat) ≤ 0xffff ∧ ([true, false] : List Bool).length ≤ 0xffff ∧
    Modbus.write_coils_frame 1 5 [false, true]
      = Modbus.write_coils_frame 1 5 [true, false] :=
  ⟨by decide, by decide,
   (write_coils_ignores_values 1 5 [true, false] [false, true]
      (by decide) (by decide)).2 (by decide)⟩
